import Mathlib

/-!
Verification of the schema-service DDL synthesis engine.

This file shallowly embeds the Go sources of the repository
(`main.go` second revision — the one containing AddForeignKey/DropForeignKey —
`utils/helpers.go`, `shared/structs.go`, and the statement templates under
`templates/`) and proves or refutes the frozen claims about them.

Conventions:
- protobuf message types become Lean structures; proto3 enums are open, so each
  enum inductive carries an `UNRECOGNIZED` constructor for wire values outside
  the named set (Go switch `default:` arms match it);
- Go `uint32` fields are `Nat` together with a well-formedness bound where the
  width matters; Go `uint32(int64 x)` casts are `% 2^32` on `Int`;
- the database collaborator (`CheckTableExists`, `CheckColumnExists`,
  `GetColumnTypeFromName`, `GetForeignKeyConstraint`, `Exec`) is an oracle
  record `Db`; each orchestrator returns its gRPC result together with the
  ordered trace of collaborator calls it issued.
-/

namespace SchemaService

/-- gRPC status codes used by the service (google.golang.org/grpc/codes). -/
inductive Code where
  | NotFound
  | AlreadyExists
  | InvalidArgument
  | Internal
deriving DecidableEq, Repr

/-- A `status.Error(code, msg)` value as returned by every handler. -/
structure GrpcError where
  code : Code
  msg : String
deriving DecidableEq, Repr

/-- proto enum `IntegerColumnType` (open proto3 enum). -/
inductive IntegerColumnType where
  | INT
  | BIGINT
  | SMALLINT
  | TINYINT
  | MEDIUMINT
  | UNRECOGNIZED (val : Int)
deriving DecidableEq, Repr

/-- proto enum `FixedPointColumnType` (open proto3 enum). -/
inductive FixedPointColumnType where
  | FLOAT
  | DOUBLE
  | UNRECOGNIZED (val : Int)
deriving DecidableEq, Repr

/-- proto enum `ReferentialAction` (open proto3 enum). -/
inductive ReferentialAction where
  | CASCADE
  | SET_NULL
  | RESTRICT
  | NO_ACTION
  | UNRECOGNIZED (val : Int)
deriving DecidableEq, Repr

/-- proto message `IntegerColumn` (fields Type, IsUnsigned, AutoIncrement). -/
structure IntegerColumn where
  type : IntegerColumnType
  isUnsigned : Bool := false
  autoIncrement : Bool := false
deriving DecidableEq, Repr

/-- proto message `VarCharColumn` (field Length : uint32). -/
structure VarCharColumn where
  length : Nat
deriving DecidableEq, Repr

/-- proto message `DecimalColumn` (fields Precision, Scale : uint32). -/
structure DecimalColumn where
  precision : Nat
  scale : Nat
deriving DecidableEq, Repr

/-- proto message `FixedPointColumn` (fields Type, Precision : uint32). -/
structure FixedPointColumn where
  type : FixedPointColumnType
  precision : Nat
deriving DecidableEq, Repr

/-- The `Column.Type` oneof: exactly one variant is active. -/
inductive ColumnType where
  | IntColumn (c : IntegerColumn)
  | BoolColumn
  | TimestampColumn
  | TextColumn
  | VarcharColumn (c : VarCharColumn)
  | DecimalColumn (c : DecimalColumn)
  | FixedPointColumn (c : FixedPointColumn)
deriving DecidableEq, Repr

/-- proto message `Column`; `type := none` is a nil oneof (Go `case nil`). -/
structure PbColumn where
  name : String := ""
  type : Option ColumnType := none
  notNullable : Bool := false
  isUnique : Bool := false
  isPrimaryKey : Bool := false
  defaultValue : String := ""
deriving DecidableEq, Repr

/-- proto message `ForeignKey`. -/
structure PbForeignKey where
  columnName : String := ""
  referenceTableName : String := ""
  referenceColumnName : String := ""
  onUpdate : ReferentialAction := .CASCADE
  onDelete : ReferentialAction := .CASCADE
deriving DecidableEq, Repr

/-- `shared.ForeignKey` from shared/structs.go (string-valued actions). -/
structure SharedForeignKey where
  columnName : String := ""
  referenceTableName : String := ""
  referenceColumnName : String := ""
  onUpdate : String := ""
  onDelete : String := ""
deriving DecidableEq, Repr

/-- `shared.RawColumnDetails` from shared/structs.go, the introspection row.
`sql.NullString`/`sql.NullInt64` become `Option`; Go reads `.Int64`/`.String`
of a null value as the zero value, modelled by `Option.getD`.
(`isPrimary` is scanned by main.go's ListColumns and included here.) -/
structure RawColumnDetails where
  columnName : String := ""
  dataType : String := ""
  columnType : String := ""
  isNullable : String := ""
  columnDefault : Option String := none
  maxLength : Option Int := none
  extra : String := ""
  isUnique : Bool := false
  isPrimary : Bool := false
  isForeign : Bool := false
  fkReferenceTableName : Option String := none
  fkReferenceColumnName : Option String := none
  fkOnUpdate : Option String := none
  fkOnDelete : Option String := none
  precision : Option Int := none
  scale : Option Int := none
deriving DecidableEq, Repr

/-- Whether the first list of characters is a prefix of the second. -/
def listIsPrefixOfChars : List Char → List Char → Bool
  | [], _ => true
  | _ :: _, [] => false
  | a :: as, b :: bs => a == b && listIsPrefixOfChars as bs

/-- Whether `sub` occurs contiguously in the scanned list. -/
def listContainsSub (sub : List Char) : List Char → Bool
  | [] => sub.isEmpty
  | c :: rest => listIsPrefixOfChars sub (c :: rest) || listContainsSub sub rest

/-- Go `strings.Contains s sub` (true iff `sub` occurs in `s`). -/
def strContainsSubstr (s sub : String) : Bool :=
  listContainsSub sub.data s.data

/-- Go `uint32(x)` for an `int64` value: truncation modulo 2^32. -/
def uint32OfInt64 (x : Int) : Nat :=
  (x % 4294967296).toNat

/-- utils/helpers.go `GetIntColumnType`: switch over the integer width with a
`default:` error arm, then appends UNSIGNED / AUTO_INCREMENT modifiers. -/
def GetIntColumnType (column : IntegerColumn) : Except String String :=
  match column.type with
  | .INT => intModifiers column "INT"
  | .BIGINT => intModifiers column "BIGINT"
  | .SMALLINT => intModifiers column "SMALLINT"
  | .TINYINT => intModifiers column "TINYINT"
  | .MEDIUMINT => intModifiers column "MEDIUMINT"
  | .UNRECOGNIZED _ => .error "invalid integer column type"
where
  intModifiers (column : IntegerColumn) (base : String) : Except String String :=
    let columnType := base ++ (if column.isUnsigned then " UNSIGNED" else "")
    .ok (columnType ++ (if column.autoIncrement then " AUTO_INCREMENT" else ""))

/-- utils/helpers.go `GetDecimalColumnType`: requires precision and scale
nonzero, then renders the DECIMAL fragment. -/
def GetDecimalColumnType (column : DecimalColumn) : Except String String :=
  if column.precision = 0 then .error "decimal precision is required"
  else if column.scale = 0 then .error "decimal scale is required"
  else .ok ("DECIMAL(" ++ toString column.precision ++ ", " ++ toString column.scale ++ ")")

/-- utils/helpers.go `GetFixedPointColumnType`: FLOAT/DOUBLE with a `default:`
error arm, then renders with the precision. -/
def GetFixedPointColumnType (column : FixedPointColumn) : Except String String :=
  match column.type with
  | .FLOAT => .ok ("FLOAT(" ++ toString column.precision ++ ")")
  | .DOUBLE => .ok ("DOUBLE(" ++ toString column.precision ++ ")")
  | .UNRECOGNIZED _ => .error "invalid fixed point column type"

/-- utils/helpers.go `GetVarCharColumnType`: rejects length 0 and lengths
outside [1, 65535], else renders the VARCHAR fragment. -/
def GetVarCharColumnType (column : VarCharColumn) : Except String String :=
  if column.length = 0 then .error "varchar length is required"
  else if column.length < 1 ∨ column.length > 65535 then
    .error "varchar length must be between 1 and 65535"
  else .ok ("VARCHAR(" ++ toString column.length ++ ")")

/-- utils/helpers.go `GetColumnFromType`: decodes an introspection row into a
`pb.Column`, keyed on `dataType`, with a hard error outside the known set.
Mirrors the Go if-chain in order (int, bigint, smallint, mediumint, tinyint,
decimal, float, double, text, varchar, timestamp). -/
def GetColumnFromType (columnDetails : RawColumnDetails) : Except String PbColumn :=
  if columnDetails.dataType = "int" then
    .ok { type := some (.IntColumn
      { type := .INT
        isUnsigned := strContainsSubstr columnDetails.columnType "unsigned"
        autoIncrement := columnDetails.extra == "auto_increment" }) }
  else if columnDetails.dataType = "bigint" then
    .ok { type := some (.IntColumn
      { type := .BIGINT
        isUnsigned := strContainsSubstr columnDetails.columnType "unsigned"
        autoIncrement := columnDetails.extra == "auto_increment" }) }
  else if columnDetails.dataType = "smallint" then
    .ok { type := some (.IntColumn
      { type := .SMALLINT
        isUnsigned := strContainsSubstr columnDetails.columnType "unsigned"
        autoIncrement := columnDetails.extra == "auto_increment" }) }
  else if columnDetails.dataType = "mediumint" then
    .ok { type := some (.IntColumn
      { type := .MEDIUMINT
        isUnsigned := strContainsSubstr columnDetails.columnType "unsigned"
        autoIncrement := columnDetails.extra == "auto_increment" }) }
  else if columnDetails.dataType = "tinyint" then
    .ok { type := some .BoolColumn }
  else if columnDetails.dataType = "decimal" then
    .ok { type := some (.DecimalColumn
      { precision := uint32OfInt64 (columnDetails.precision.getD 0)
        scale := uint32OfInt64 (columnDetails.scale.getD 0) }) }
  else if columnDetails.dataType = "float" then
    .ok { type := some (.FixedPointColumn
      { type := .FLOAT, precision := uint32OfInt64 (columnDetails.precision.getD 0) }) }
  else if columnDetails.dataType = "double" then
    .ok { type := some (.FixedPointColumn
      { type := .DOUBLE, precision := uint32OfInt64 (columnDetails.precision.getD 0) }) }
  else if columnDetails.dataType = "text" then
    .ok { type := some .TextColumn }
  else if columnDetails.dataType = "varchar" then
    .ok { type := some (.VarcharColumn
      { length := uint32OfInt64 (columnDetails.maxLength.getD 0) }) }
  else if columnDetails.dataType = "timestamp" then
    .ok { type := some .TimestampColumn }
  else
    .error "unsupported column type"

/-- utils/helpers.go `GetReferentialActionsFromEnum`: switch with a
`default: "NO ACTION"` fail-safe arm. -/
def GetReferentialActionsFromEnum (action : ReferentialAction) : String :=
  match action with
  | .CASCADE => "CASCADE"
  | .SET_NULL => "SET NULL"
  | .RESTRICT => "RESTRICT"
  | .NO_ACTION => "NO ACTION"
  | .UNRECOGNIZED _ => "NO ACTION"

/-- utils/helpers.go `MapReferentialActionsEnumToString`: writes the textual
actions of `foreignKey` into `rawKey` (returned instead of mutated). -/
def MapReferentialActionsEnumToString (foreignKey : PbForeignKey)
    (rawKey : SharedForeignKey) : SharedForeignKey :=
  { rawKey with
    onUpdate := GetReferentialActionsFromEnum foreignKey.onUpdate
    onDelete := GetReferentialActionsFromEnum foreignKey.onDelete }

/-- utils/helpers.go `MapReferentialActionsStringToEnum`: two switches over the
textual actions of `rawKey`, each with a `default: NO_ACTION` fail-safe arm;
writes the enums into `foreignKey` (returned instead of mutated). -/
def MapReferentialActionsStringToEnum (rawKey : SharedForeignKey)
    (foreignKey : PbForeignKey) : PbForeignKey :=
  let fk :=
    { foreignKey with onUpdate :=
        if rawKey.onUpdate = "CASCADE" then ReferentialAction.CASCADE
        else if rawKey.onUpdate = "SET NULL" then ReferentialAction.SET_NULL
        else if rawKey.onUpdate = "RESTRICT" then ReferentialAction.RESTRICT
        else if rawKey.onUpdate = "NO ACTION" then ReferentialAction.NO_ACTION
        else ReferentialAction.NO_ACTION }
  { fk with onDelete :=
      if rawKey.onDelete = "CASCADE" then ReferentialAction.CASCADE
      else if rawKey.onDelete = "SET NULL" then ReferentialAction.SET_NULL
      else if rawKey.onDelete = "RESTRICT" then ReferentialAction.RESTRICT
      else if rawKey.onDelete = "NO ACTION" then ReferentialAction.NO_ACTION
      else ReferentialAction.NO_ACTION }

/-- Rendering of templates/add_column.tmpl (Go text/template, whitespace-trim
markers applied). The DEFAULT clause only appears for a truthy (non-empty)
default value and quotes it exactly when the type starts with VARCHAR. -/
def renderAddColumn (tableName : String) (column : PbColumn) (columnType : String) : String :=
  "ALTER TABLE " ++ tableName ++ "\n" ++ "ADD COLUMN " ++ column.name ++ " " ++ columnType ++
  (if column.defaultValue = "" then ""
   else if "VARCHAR".isPrefixOf columnType then
     " DEFAULT \"" ++ column.defaultValue ++ "\" "
   else " DEFAULT " ++ column.defaultValue) ++
  (if column.notNullable then " NOT NULL" else "") ++
  (if column.isUnique then " UNIQUE" else "") ++ "\n"

/-- Rendering of templates/add_foreign_key.tmpl. The branch on the reserved
reference table name "users" hardcodes BIGINT UNSIGNED and the system users
table; the other branch uses the caller-resolved reference column type. -/
def renderAddForeignKey (tableName columnName columnType referenceTableName
    referenceColumnName : String) (isNotNull : Bool) (onUpdate onDelete : String) : String :=
  "ALTER TABLE " ++ tableName ++
  (if referenceTableName = "users" then
    "\n  " ++ "ADD COLUMN " ++ columnName ++ " BIGINT UNSIGNED" ++
    (if isNotNull then " NOT NULL" else "") ++
    ",\n  ADD FOREIGN KEY (" ++ columnName ++ ") REFERENCES `baas-system`.users (id) ON DELETE " ++
    onDelete ++ " ON UPDATE " ++ onUpdate
  else
    "\n  " ++ "ADD COLUMN " ++ columnName ++ " " ++ columnType ++
    (if isNotNull then " NOT NULL" else "") ++
    ",\n  ADD FOREIGN KEY (" ++ columnName ++ ") REFERENCES " ++ referenceTableName ++
    " (" ++ referenceColumnName ++ ") ON DELETE " ++ onDelete ++ " ON UPDATE " ++ onUpdate) ++
  "\n"

/-- The column data handed to create_table.tmpl (main.go local `Column`). -/
structure GoColumn where
  name : String := ""
  type : String := ""
  notNullable : Bool := false
  isUnique : Bool := false
  isPrimaryKey : Bool := false
  defaultValue : String := ""
deriving DecidableEq, Repr

/-- One per-column item of templates/create_table.tmpl's range body. -/
def renderCreateTableColumn (idx : Nat) (col : GoColumn) : String :=
  (if idx ≠ 0 then "," else "") ++ "\n        " ++ col.name ++ " " ++ col.type ++
  (if col.notNullable then " NOT NULL" else "") ++
  (if col.isUnique then " UNIQUE" else "") ++
  (if col.defaultValue = "" then "" else " DEFAULT " ++ col.defaultValue)

/-- One per-foreign-key item of templates/create_table.tmpl's range body. -/
def renderCreateTableFk (fk : SharedForeignKey) : String :=
  "\n            , FOREIGN KEY (" ++ fk.columnName ++ ") REFERENCES " ++
  fk.referenceTableName ++ "(" ++ fk.referenceColumnName ++ ") ON DELETE " ++
  fk.onDelete ++ " ON UPDATE " ++ fk.onUpdate

/-- Rendering of templates/create_table.tmpl: implicit id primary key, the
caller columns in order, audit columns, the implicit owning foreign key to the
system users table, caller foreign keys, optional table comment. -/
def renderCreateTable (tableName : String) (columns : List GoColumn)
    (foreignKeys : List SharedForeignKey) (tableComment : String) : String :=
  "CREATE TABLE IF NOT EXISTS " ++ tableName ++
  " (\n  id BIGINT UNSIGNED AUTO_INCREMENT PRIMARY KEY," ++
  String.join (columns.enum.map (fun p => renderCreateTableColumn p.1 p.2)) ++
  "\n    , creator_id BIGINT UNSIGNED NOT NULL" ++
  "\n    , created_at TIMESTAMP DEFAULT CURRENT_TIMESTAMP" ++
  "\n    , updated_at TIMESTAMP DEFAULT CURRENT_TIMESTAMP ON UPDATE CURRENT_TIMESTAMP," ++
  "\n\n    FOREIGN KEY (creator_id) REFERENCES `baas-system`.users(id) ON DELETE CASCADE ON UPDATE CASCADE" ++
  (if foreignKeys.length > 0 then String.join (foreignKeys.map renderCreateTableFk) else "") ++
  "\n)" ++
  (if tableComment = "" then "" else " COMMENT= \"" ++ tableComment ++ "\"  ") ++ ";\n"

/-- Modelled from the spec: templates/drop_foreign_key_constraint.tmpl is not
under src (only its caller in main.go DropForeignKey is); section 4.3/4.5 of
the spec describe it as the statement that drops the named constraint, given
the table name and the constraint name. -/
def renderDropForeignKeyConstraint (tableName constraintName : String) : String :=
  "ALTER TABLE " ++ tableName ++ " DROP FOREIGN KEY " ++ constraintName

/-- Modelled from the spec: templates/drop_foreign_key_column.tmpl is not
under src; the spec describes it as the statement that then drops the
now-unreferenced column. -/
def renderDropForeignKeyColumn (tableName columnName : String) : String :=
  "ALTER TABLE " ++ tableName ++ " DROP COLUMN " ++ columnName

/-- The database collaborator, as consumed by the orchestrator:
`tableExists` is `utils.CheckTableExists`, `columnExists` is
`utils.CheckColumnExists`, `columnTypeOf` is `utils.GetColumnTypeFromName`,
`fkConstraintOf` is `utils.GetForeignKeyConstraint` (empty string when the
column has no constraint), `execFails` tells whether `Db.Exec`/`Tx.Exec` of a
given statement fails, and `commitFails` whether `Tx.Commit` fails. -/
structure Db where
  tableExists : String → Bool
  columnExists : String → String → Bool
  columnTypeOf : String → String → String
  fkConstraintOf : String → String → String
  execFails : String → Bool
  commitFails : Bool

/-- One observable call against the database collaborator. -/
inductive DbEvent where
  | tableExistsCheck (tableName : String)
  | columnExistsCheck (tableName columnName : String)
  | columnTypeLookup (tableName columnName : String)
  | constraintLookup (tableName columnName : String)
  | execStmt (sql : String)
  | txBegin
  | txExec (sql : String)
  | txCommit
  | txRollback
deriving DecidableEq, Repr, BEq

/-- The column-type switch shared verbatim by main.go CreateTable (second
revision, lines 590-609) and AddColumn (lines 781-800): only the IntColumn,
BoolColumn, TimestampColumn and VarcharColumn variants are handled; a nil
oneof errs with "column type is required" and every other variant falls into
the `default:` arm with "invalid column type". -/
def resolveColumnType : Option ColumnType → Except GrpcError String
  | some (.IntColumn ic) =>
      match GetIntColumnType ic with
      | .error _ => .error ⟨.InvalidArgument, "invalid integer column type"⟩
      | .ok s => .ok s
  | some .BoolColumn => .ok "BOOLEAN"
  | some .TimestampColumn => .ok "TIMESTAMP"
  | some (.VarcharColumn vc) =>
      match GetVarCharColumnType vc with
      | .error _ => .error ⟨.InvalidArgument, "invalid varchar column type"⟩
      | .ok s => .ok s
  | none => .error ⟨.InvalidArgument, "column type is required"⟩
  | some _ => .error ⟨.InvalidArgument, "invalid column type"⟩

/-- The per-column loop of main.go CreateTable: resolves each column type in
caller order, failing fast on the first invalid column. -/
def resolveColumns : List PbColumn → Except GrpcError (List GoColumn)
  | [] => .ok []
  | column :: rest =>
      match resolveColumnType column.type with
      | .error e => .error e
      | .ok columnType =>
          match resolveColumns rest with
          | .error e => .error e
          | .ok gs => .ok ({ name := column.name, type := columnType
                             notNullable := column.notNullable
                             isUnique := column.isUnique
                             isPrimaryKey := column.isPrimaryKey
                             defaultValue := column.defaultValue } :: gs)

/-- The per-foreign-key loop of main.go CreateTable: maps the referential
actions to strings, then checks reference table and reference column
existence, failing fast; returns the mapped keys and the trace of checks. -/
def checkCreateFks (db : Db) : List PbForeignKey →
    Except GrpcError (List SharedForeignKey) × List DbEvent
  | [] => (.ok [], [])
  | fk :: rest =>
      let raw := MapReferentialActionsEnumToString fk
        { columnName := fk.columnName
          referenceTableName := fk.referenceTableName
          referenceColumnName := fk.referenceColumnName }
      let e1 := [DbEvent.tableExistsCheck fk.referenceTableName]
      if !db.tableExists fk.referenceTableName then
        (.error ⟨.NotFound, "reference table not found"⟩, e1)
      else
        let e2 := e1 ++ [DbEvent.columnExistsCheck fk.referenceTableName fk.referenceColumnName]
        if !db.columnExists fk.referenceTableName fk.referenceColumnName then
          (.error ⟨.NotFound, "reference column not found"⟩, e2)
        else
          match checkCreateFks db rest with
          | (.error e, evs) => (.error e, e2 ++ evs)
          | (.ok raws, evs) => (.ok (raw :: raws), e2 ++ evs)

/-- main.go `CreateTable` (second revision, lines 563-671): table-not-exists
gate, per-column type resolution, per-foreign-key checks, template rendering,
one Exec; the response message is the rendered statement text. -/
def CreateTable (db : Db) (tableName : String) (inColumns : List PbColumn)
    (inForeignKeys : List PbForeignKey) (tableComment : String) :
    Except GrpcError String × List DbEvent :=
  let e1 := [DbEvent.tableExistsCheck tableName]
  if db.tableExists tableName then
    (.error ⟨.AlreadyExists, "table already exists"⟩, e1)
  else
    match resolveColumns inColumns with
    | .error e => (.error e, e1)
    | .ok columns =>
        match checkCreateFks db inForeignKeys with
        | (.error e, evs) => (.error e, e1 ++ evs)
        | (.ok foreignKeys, evs) =>
            let sql := renderCreateTable tableName columns foreignKeys tableComment
            let e2 := e1 ++ evs ++ [DbEvent.execStmt sql]
            if db.execFails sql then
              (.error ⟨.Internal, "failed to create table"⟩, e2)
            else
              (.ok sql, e2)

/-- main.go `AddColumn` (second revision, lines 746-827): table-exists and
column-not-exists gates, the shared type switch, template rendering, one
Exec. -/
def AddColumn (db : Db) (tableName : String) (inColumn : PbColumn) :
    Except GrpcError String × List DbEvent :=
  let e1 := [DbEvent.tableExistsCheck tableName]
  if !db.tableExists tableName then
    (.error ⟨.NotFound, "table not found"⟩, e1)
  else
    let e2 := e1 ++ [DbEvent.columnExistsCheck tableName inColumn.name]
    if db.columnExists tableName inColumn.name then
      (.error ⟨.AlreadyExists, "column already exists"⟩, e2)
    else
      match resolveColumnType inColumn.type with
      | .error e => (.error e, e2)
      | .ok columnType =>
          let sql := renderAddColumn tableName inColumn columnType
          let e3 := e2 ++ [DbEvent.execStmt sql]
          if db.execFails sql then
            (.error ⟨.Internal, "failed to add column"⟩, e3)
          else
            (.ok "column added", e3)

/-- main.go `AddForeignKey` (lines 1010-1098): four existence gates, then the
reference column type lookup via `utils.GetColumnTypeFromName` (issued
unconditionally), template rendering, one Exec. -/
def AddForeignKey (db : Db) (tableName : String) (foreignKey : PbForeignKey)
    (notNullable : Bool) : Except GrpcError String × List DbEvent :=
  let e1 := [DbEvent.tableExistsCheck tableName]
  if !db.tableExists tableName then
    (.error ⟨.NotFound, "table not found"⟩, e1)
  else
    let e2 := e1 ++ [DbEvent.columnExistsCheck tableName foreignKey.columnName]
    if db.columnExists tableName foreignKey.columnName then
      (.error ⟨.AlreadyExists, "column with this name already exists"⟩, e2)
    else
      let e3 := e2 ++ [DbEvent.tableExistsCheck foreignKey.referenceTableName]
      if !db.tableExists foreignKey.referenceTableName then
        (.error ⟨.NotFound, "reference table not found"⟩, e3)
      else
        let e4 := e3 ++ [DbEvent.columnExistsCheck foreignKey.referenceTableName
          foreignKey.referenceColumnName]
        if !db.columnExists foreignKey.referenceTableName foreignKey.referenceColumnName then
          (.error ⟨.NotFound, "reference column not found"⟩, e4)
        else
          let e5 := e4 ++ [DbEvent.columnTypeLookup foreignKey.referenceTableName
            foreignKey.referenceColumnName]
          let columnType := db.columnTypeOf foreignKey.referenceTableName
            foreignKey.referenceColumnName
          let sql := renderAddForeignKey tableName foreignKey.columnName columnType
            foreignKey.referenceTableName foreignKey.referenceColumnName notNullable
            (GetReferentialActionsFromEnum foreignKey.onUpdate)
            (GetReferentialActionsFromEnum foreignKey.onDelete)
          let e6 := e5 ++ [DbEvent.execStmt sql]
          if db.execFails sql then
            (.error ⟨.Internal, "failed to add foreign key"⟩, e6)
          else
            (.ok "foreign key added", e6)

/-- main.go `DropForeignKey` (lines 1100-1201): table-exists and column-exists
gates, constraint-name lookup (no abort on an empty name), both templates
rendered up front, then the only explicit transaction: Begin, deferred
Rollback, Exec of the drop-constraint statement, Exec of the drop-column
statement, Commit. -/
def DropForeignKey (db : Db) (tableName columnName : String) :
    Except GrpcError String × List DbEvent :=
  let e1 := [DbEvent.tableExistsCheck tableName]
  if !db.tableExists tableName then
    (.error ⟨.NotFound, "table not found"⟩, e1)
  else
    let e2 := e1 ++ [DbEvent.columnExistsCheck tableName columnName]
    if !db.columnExists tableName columnName then
      (.error ⟨.NotFound, "column not found"⟩, e2)
    else
      let e3 := e2 ++ [DbEvent.constraintLookup tableName columnName]
      let constraintName := db.fkConstraintOf tableName columnName
      let sql1 := renderDropForeignKeyConstraint tableName constraintName
      let sql2 := renderDropForeignKeyColumn tableName columnName
      let e4 := e3 ++ [DbEvent.txBegin, DbEvent.txExec sql1]
      if db.execFails sql1 then
        (.error ⟨.Internal, "failed to drop foreign key constraint"⟩, e4 ++ [DbEvent.txRollback])
      else
        let e5 := e4 ++ [DbEvent.txExec sql2]
        if db.execFails sql2 then
          (.error ⟨.Internal, "failed to drop foreign key"⟩, e5 ++ [DbEvent.txRollback])
        else
          let e6 := e5 ++ [DbEvent.txCommit]
          if db.commitFails then
            (.error ⟨.Internal, "failed to commit transaction"⟩, e6)
          else
            (.ok "foreign key dropped", e6)

/-- The slice of schema state DropForeignKey's transaction manipulates: whether
the foreign-key constraint and the foreign-key column are present. -/
structure DbState where
  constraintPresent : Bool
  columnPresent : Bool
deriving DecidableEq, Repr

/-- The two DDL statements issued inside the DropForeignKey transaction. -/
inductive FkStmt where
  | dropConstraint
  | dropColumn
deriving DecidableEq, Repr

/-- Effect of each statement on the schema state. -/
def applyFkStmt : FkStmt → DbState → DbState
  | .dropConstraint, s => { s with constraintPresent := false }
  | .dropColumn, s => { s with columnPresent := false }

/-- A database/sql transaction over the schema state: `base` is the state
visible outside the transaction, `pending` the tentative state inside it.
`Db.Begin` opens it with both equal; `Tx.Exec` advances `pending` or fails;
`Rollback` publishes `base`, `Commit` publishes `pending`. -/
structure Tx where
  base : DbState
  pending : DbState

/-- `Db.Begin`. -/
def txBegin (s : DbState) : Tx := ⟨s, s⟩

/-- `Tx.Exec` of one statement; `fails` is the engine-failure oracle. -/
def Tx.execFkStmt (tx : Tx) (stmt : FkStmt) (fails : Bool) : Option Tx :=
  if fails then none else some ⟨tx.base, applyFkStmt stmt tx.pending⟩

/-- The state the database publishes after `Tx.Rollback`. -/
def Tx.rollbackState (tx : Tx) : DbState := tx.base

/-- The state the database publishes after `Tx.Commit`. -/
def Tx.commitState (tx : Tx) : DbState := tx.pending

/-- The transaction section of main.go `DropForeignKey` (lines 1174-1198):
Begin with a deferred Rollback, Exec the drop-constraint statement, Exec the
drop-column statement, Commit; every error return leaves the deferred Rollback
to publish the base state. Returns the handler result paired with the state
observable after the handler returns. -/
def DropForeignKeyTx (s : DbState) (fail1 fail2 commitFails : Bool) :
    Except GrpcError DbState × DbState :=
  let tx := txBegin s
  match tx.execFkStmt .dropConstraint fail1 with
  | none => (.error ⟨.Internal, "failed to drop foreign key constraint"⟩, tx.rollbackState)
  | some tx1 =>
      match tx1.execFkStmt .dropColumn fail2 with
      | none => (.error ⟨.Internal, "failed to drop foreign key"⟩, tx1.rollbackState)
      | some tx2 =>
          if commitFails then
            (.error ⟨.Internal, "failed to commit transaction"⟩, tx2.rollbackState)
          else
            (.ok tx2.commitState, tx2.commitState)

/-- Engine keyword reported by introspection for each integer width. -/
def intKeyword : IntegerColumnType → String
  | .INT => "int"
  | .BIGINT => "bigint"
  | .SMALLINT => "smallint"
  | .TINYINT => "tinyint"
  | .MEDIUMINT => "mediumint"
  | .UNRECOGNIZED _ => ""

/-- Engine keyword reported by introspection for each fixed-point kind. -/
def fixedPointKeyword : FixedPointColumnType → String
  | .FLOAT => "float"
  | .DOUBLE => "double"
  | .UNRECOGNIZED _ => ""

/-- Every uint32-typed numeric proto field of the variant is within uint32
range (true of every value that can arrive on the wire). -/
def columnTypeWF : ColumnType → Bool
  | .VarcharColumn vc => decide (vc.length < 4294967296)
  | .DecimalColumn dc => decide (dc.precision < 4294967296) && decide (dc.scale < 4294967296)
  | .FixedPointColumn fc => decide (fc.precision < 4294967296)
  | _ => true

/-- Modelled from the spec: the full `TypeCodec.ToSQL` dispatch of section 4.1.
The per-variant encoders are the source functions from utils/helpers.go
(GetIntColumnType, GetVarCharColumnType, GetDecimalColumnType,
GetFixedPointColumnType) and the literal fragments for Bool, Timestamp and
Text; the dispatch arms for Decimal, FixedPoint and Text are absent from the
orchestrator switch in src (see the C1 result) and are taken from the spec's
encoding table. -/
def ToSQL : ColumnType → Except String String
  | .IntColumn ic => GetIntColumnType ic
  | .BoolColumn => .ok "BOOLEAN"
  | .TimestampColumn => .ok "TIMESTAMP"
  | .TextColumn => .ok "TEXT"
  | .VarcharColumn vc => GetVarCharColumnType vc
  | .DecimalColumn dc => GetDecimalColumnType dc
  | .FixedPointColumn fc => GetFixedPointColumnType fc

/-- Modelled from the spec: the introspection row the database engine returns
for a column created with the encoding of the given variant (spec sections 3
and 4.1): `dataType` is the engine type keyword, `columnType` the full engine
type string (contains "unsigned" exactly for unsigned integers; BOOLEAN is
stored as tinyint(1)), `extra` is "auto_increment" for auto-increment columns,
`maxLength` reflects the Varchar length, `precision`/`scale` the
Decimal/FixedPoint parameters. -/
def introspectRow : ColumnType → RawColumnDetails
  | .IntColumn ic =>
      { dataType := intKeyword ic.type
        columnType := intKeyword ic.type ++ (if ic.isUnsigned then " unsigned" else "")
        extra := if ic.autoIncrement then "auto_increment" else "" }
  | .BoolColumn => { dataType := "tinyint", columnType := "tinyint(1)" }
  | .TimestampColumn => { dataType := "timestamp", columnType := "timestamp" }
  | .TextColumn => { dataType := "text", columnType := "text" }
  | .VarcharColumn vc =>
      { dataType := "varchar"
        columnType := "varchar(" ++ toString vc.length ++ ")"
        maxLength := some (vc.length : Int) }
  | .DecimalColumn dc =>
      { dataType := "decimal"
        columnType := "decimal(" ++ toString dc.precision ++ "," ++ toString dc.scale ++ ")"
        precision := some (dc.precision : Int)
        scale := some (dc.scale : Int) }
  | .FixedPointColumn fc =>
      { dataType := fixedPointKeyword fc.type
        columnType := fixedPointKeyword fc.type ++ "(" ++ toString fc.precision ++ ")"
        precision := some (fc.precision : Int) }

/-- The documented lossy image of the encode/introspect/decode round trip: an
Int of width TINYINT comes back as Bool; every other variant is unchanged. -/
def roundTripImage : ColumnType → ColumnType
  | .IntColumn ic => if ic.type = .TINYINT then .BoolColumn else .IntColumn ic
  | c => c

/-- Go `uint32(int64 n)` is the identity on in-range naturals. -/
theorem uint32OfInt64_coe (n : Nat) (h : n < 4294967296) : uint32OfInt64 (n : Int) = n := by
  unfold uint32OfInt64
  omega

/-! Concrete database oracles used to evaluate the orchestrators. -/

/-- Oracle where every table exists, no column exists, every statement
succeeds. -/
def dbAllTablesNoColumns : Db :=
  { tableExists := fun _ => true
    columnExists := fun _ _ => false
    columnTypeOf := fun _ _ => ""
    fkConstraintOf := fun _ _ => ""
    execFails := fun _ => false
    commitFails := false }

/-- Oracle where no table exists. -/
def dbNoTables : Db :=
  { dbAllTablesNoColumns with tableExists := fun _ => false }

/-- Oracle where every table and column exists but no foreign-key constraint
is recorded. -/
def dbAllExistNoConstraint : Db :=
  { dbAllTablesNoColumns with columnExists := fun _ _ => true }

/-- Oracle under which the AddForeignKey gates for a new column referencing
the users table all pass: every table exists, and a column exists exactly in
the users table. -/
def dbUsersOnly : Db :=
  { tableExists := fun _ => true
    columnExists := fun t _ => t == "users"
    columnTypeOf := fun _ _ => "INT"
    fkConstraintOf := fun _ _ => ""
    execFails := fun _ => false
    commitFails := false }

/-! ## Claims -/

/-- C1. The claim states that CreateTable/AddColumn requests with Decimal
(precision > 0, scale > 0), FixedPoint or Text columns encode successfully and
are not rejected as an invalid column type. The orchestrator's shared type
switch has no arms for these variants, so they fall into the `default:` arm
and the request is rejected with InvalidArgument "invalid column type", even
though the repository's own encoders (GetDecimalColumnType,
GetFixedPointColumnType) accept them and produce exactly the fragments the
claim names. This theorem evaluates the code at the failing inputs. -/
theorem c1_addColumn_rejects_decimal_fixedpoint_text :
    (AddColumn dbAllTablesNoColumns "invoices"
      { name := "amount", type := some (.DecimalColumn ⟨10, 2⟩) }).1
      = .error ⟨.InvalidArgument, "invalid column type"⟩ ∧
    (AddColumn dbAllTablesNoColumns "measurements"
      { name := "reading", type := some (.FixedPointColumn ⟨.FLOAT, 10⟩) }).1
      = .error ⟨.InvalidArgument, "invalid column type"⟩ ∧
    (AddColumn dbAllTablesNoColumns "posts"
      { name := "body", type := some .TextColumn }).1
      = .error ⟨.InvalidArgument, "invalid column type"⟩ ∧
    (CreateTable dbNoTables "invoices"
      [{ name := "amount", type := some (.DecimalColumn ⟨10, 2⟩) }] [] "").1
      = .error ⟨.InvalidArgument, "invalid column type"⟩ ∧
    GetDecimalColumnType ⟨10, 2⟩ = .ok "DECIMAL(10, 2)" ∧
    GetFixedPointColumnType ⟨.FLOAT, 10⟩ = .ok "FLOAT(10)" ∧
    GetFixedPointColumnType ⟨.DOUBLE, 10⟩ = .ok "DOUBLE(10)" :=
  ⟨rfl, rfl, rfl, rfl, rfl, rfl, rfl⟩

/-- C7. The referential-action codec is total in both directions:
GetReferentialActionsFromEnum maps the four named actions to their SQL
keywords and every unrecognized enum value to "NO ACTION";
MapReferentialActionsStringToEnum inverts it on those four strings (so
round-tripping each named action is the identity) and maps every unrecognized
string to NO_ACTION. -/
theorem c7_referentialActionCodec_total_inverse (a : ReferentialAction) (v : Int)
    (s : String) (fk : PbForeignKey)
    (ha : a = .CASCADE ∨ a = .SET_NULL ∨ a = .RESTRICT ∨ a = .NO_ACTION)
    (hs : s ≠ "CASCADE" ∧ s ≠ "SET NULL" ∧ s ≠ "RESTRICT" ∧ s ≠ "NO ACTION") :
    GetReferentialActionsFromEnum .CASCADE = "CASCADE" ∧
    GetReferentialActionsFromEnum .SET_NULL = "SET NULL" ∧
    GetReferentialActionsFromEnum .RESTRICT = "RESTRICT" ∧
    GetReferentialActionsFromEnum .NO_ACTION = "NO ACTION" ∧
    GetReferentialActionsFromEnum (.UNRECOGNIZED v) = "NO ACTION" ∧
    MapReferentialActionsStringToEnum
      { onUpdate := GetReferentialActionsFromEnum a, onDelete := s } fk
      = { fk with onUpdate := a, onDelete := .NO_ACTION } := by
  obtain ⟨h1, h2, h3, h4⟩ := hs
  refine ⟨rfl, rfl, rfl, rfl, rfl, ?_⟩
  rcases ha with h | h | h | h <;> subst h <;>
    simp [MapReferentialActionsStringToEnum, GetReferentialActionsFromEnum, h1, h2, h3, h4]

/-- Witness for C7 at CASCADE and the unrecognized string "garbage". -/
theorem c7_referentialActionCodec_total_inverse_witness :
    GetReferentialActionsFromEnum .CASCADE = "CASCADE" ∧
    GetReferentialActionsFromEnum .SET_NULL = "SET NULL" ∧
    GetReferentialActionsFromEnum .RESTRICT = "RESTRICT" ∧
    GetReferentialActionsFromEnum .NO_ACTION = "NO ACTION" ∧
    GetReferentialActionsFromEnum (.UNRECOGNIZED 7) = "NO ACTION" ∧
    MapReferentialActionsStringToEnum
      { onUpdate := GetReferentialActionsFromEnum .CASCADE, onDelete := "garbage" } {}
      = { ({} : PbForeignKey) with onUpdate := .CASCADE, onDelete := .NO_ACTION } :=
  c7_referentialActionCodec_total_inverse .CASCADE 7 "garbage" {} (Or.inl rfl)
    ⟨by decide, by decide, by decide, by decide⟩

/-- Unfolding of `GetVarCharColumnType` on a literal column. -/
theorem getVarCharColumnType_eq (l : Nat) :
    GetVarCharColumnType ⟨l⟩ =
      if l = 0 then .error "varchar length is required"
      else if l < 1 ∨ l > 65535 then .error "varchar length must be between 1 and 65535"
      else .ok ("VARCHAR(" ++ toString l ++ ")") := rfl

/-- C8. GetVarCharColumnType accepts every length in [1, 65535], producing the
VARCHAR fragment, and rejects 0 and every length above 65535 (in particular
65536 and 70000). -/
theorem c8_varchar_length_bounds (m n : Nat) (hm1 : 1 ≤ m) (hm2 : m ≤ 65535)
    (hn : n = 0 ∨ 65535 < n) :
    GetVarCharColumnType ⟨m⟩ = .ok ("VARCHAR(" ++ toString m ++ ")") ∧
    (GetVarCharColumnType ⟨n⟩).isOk = false ∧
    (GetVarCharColumnType ⟨0⟩).isOk = false ∧
    (GetVarCharColumnType ⟨65536⟩).isOk = false ∧
    (GetVarCharColumnType ⟨70000⟩).isOk = false ∧
    GetVarCharColumnType ⟨1⟩ = .ok "VARCHAR(1)" ∧
    GetVarCharColumnType ⟨65535⟩ = .ok "VARCHAR(65535)" := by
  refine ⟨?_, ?_, rfl, rfl, rfl, rfl, rfl⟩
  · rw [getVarCharColumnType_eq]
    rw [if_neg (by omega), if_neg (by omega)]
  · rw [getVarCharColumnType_eq]
    rcases hn with h | h
    · subst h
      rfl
    · rw [if_neg (by omega), if_pos (by omega)]
      rfl

/-- Witness for C8 at the accepted length 100 and the rejected length 70000. -/
theorem c8_varchar_length_bounds_witness :
    GetVarCharColumnType ⟨100⟩ = .ok ("VARCHAR(" ++ toString 100 ++ ")") ∧
    (GetVarCharColumnType ⟨70000⟩).isOk = false ∧
    (GetVarCharColumnType ⟨0⟩).isOk = false ∧
    (GetVarCharColumnType ⟨65536⟩).isOk = false ∧
    (GetVarCharColumnType ⟨70000⟩).isOk = false ∧
    GetVarCharColumnType ⟨1⟩ = .ok "VARCHAR(1)" ∧
    GetVarCharColumnType ⟨65535⟩ = .ok "VARCHAR(65535)" :=
  c8_varchar_length_bounds 100 70000 (by decide) (by decide) (Or.inr (by decide))

/-- C9. CreateTable on an existing table aborts with AlreadyExists right after
the table-existence check: the result and trace are independent of the
requested columns and foreign keys, the trace holds exactly the one existence
check, and in particular no statement is executed and no column is
validated. -/
theorem c9_createTable_existing_table_aborts (db : Db) (tableName : String)
    (inColumns : List PbColumn) (inForeignKeys : List PbForeignKey)
    (tableComment : String) (h : db.tableExists tableName = true) :
    CreateTable db tableName inColumns inForeignKeys tableComment
      = (.error ⟨.AlreadyExists, "table already exists"⟩,
         [DbEvent.tableExistsCheck tableName]) := by
  simp [CreateTable, h]

/-- Witness for C9: the oracle where every table exists, with an invalid
(Decimal) column in the request that is nevertheless never validated. -/
theorem c9_createTable_existing_table_aborts_witness :
    dbAllTablesNoColumns.tableExists "posts" = true ∧
    CreateTable dbAllTablesNoColumns "posts"
      [{ name := "amount", type := some (.DecimalColumn ⟨10, 2⟩) }] [] ""
      = (.error ⟨.AlreadyExists, "table already exists"⟩,
         [DbEvent.tableExistsCheck "posts"]) :=
  ⟨rfl, c9_createTable_existing_table_aborts _ _ _ _ _ rfl⟩

/-- C2. Atomicity of the DropForeignKey transaction: the handler succeeds
exactly when both statements and the commit succeed; on any failure the
observable state is the original one (constraint and column intact); and the
observable state is never partial — it is either the original state or the
state with both the constraint and the column dropped. -/
theorem c2_dropForeignKeyTx_atomic (s : DbState) (f1 f2 cf : Bool) :
    ((DropForeignKeyTx s f1 f2 cf).1.isOk = true ↔
      (f1 = false ∧ f2 = false ∧ cf = false)) ∧
    ((DropForeignKeyTx s f1 f2 cf).1.isOk = false → (DropForeignKeyTx s f1 f2 cf).2 = s) ∧
    ((DropForeignKeyTx s f1 f2 cf).1.isOk = true →
      (DropForeignKeyTx s f1 f2 cf).2 = { constraintPresent := false, columnPresent := false }) ∧
    ((DropForeignKeyTx s f1 f2 cf).2 = s ∨
      (DropForeignKeyTx s f1 f2 cf).2 = { constraintPresent := false, columnPresent := false }) := by
  rcases s with ⟨c, col⟩
  cases f1 <;> cases f2 <;> cases cf <;>
    simp [DropForeignKeyTx, txBegin, Tx.execFkStmt, applyFkStmt, Tx.rollbackState,
      Tx.commitState, Except.isOk, Except.toBool]

/-- Witness for C2: starting from the intact state, a failure of the second
statement rolls both drops back. -/
theorem c2_dropForeignKeyTx_atomic_witness :
    ((DropForeignKeyTx ⟨true, true⟩ false true false).1.isOk = true ↔
      (false = false ∧ true = false ∧ false = false)) ∧
    ((DropForeignKeyTx ⟨true, true⟩ false true false).1.isOk = false →
      (DropForeignKeyTx ⟨true, true⟩ false true false).2 = ⟨true, true⟩) ∧
    ((DropForeignKeyTx ⟨true, true⟩ false true false).1.isOk = true →
      (DropForeignKeyTx ⟨true, true⟩ false true false).2
        = { constraintPresent := false, columnPresent := false }) ∧
    ((DropForeignKeyTx ⟨true, true⟩ false true false).2 = ⟨true, true⟩ ∨
      (DropForeignKeyTx ⟨true, true⟩ false true false).2
        = { constraintPresent := false, columnPresent := false }) :=
  c2_dropForeignKeyTx_atomic ⟨true, true⟩ false true false

/-- C3. In the rendered AddForeignKey DDL, when the reference table is the
reserved users table the generated column type is exactly BIGINT UNSIGNED and
the rendering does not depend on the resolved reference column type; for every
other reference table the generated column type is the resolved reference
column type. -/
theorem c3_addForeignKey_users_bigint_unsigned (t c ct ct2 rt rc u d : String)
    (nn : Bool) (hrt : rt ≠ "users") :
    renderAddForeignKey t c ct "users" rc nn u d
      = renderAddForeignKey t c ct2 "users" rc nn u d ∧
    (∃ pre post, renderAddForeignKey t c ct "users" rc nn u d
      = pre ++ ("ADD COLUMN " ++ c ++ " BIGINT UNSIGNED") ++ post) ∧
    (∃ pre post, renderAddForeignKey t c ct rt rc nn u d
      = pre ++ ("ADD COLUMN " ++ c ++ " " ++ ct) ++ post) := by
  refine ⟨by simp [renderAddForeignKey], ?_, ?_⟩
  · refine ⟨"ALTER TABLE " ++ t ++ "\n  ",
      (if nn then " NOT NULL" else "") ++
      (",\n  ADD FOREIGN KEY (" ++ c ++ ") REFERENCES `baas-system`.users (id) ON DELETE " ++
       d ++ " ON UPDATE " ++ u) ++ "\n", ?_⟩
    unfold renderAddForeignKey
    rw [if_pos rfl]
    simp only [String.append_assoc]
  · refine ⟨"ALTER TABLE " ++ t ++ "\n  ",
      (if nn then " NOT NULL" else "") ++
      (",\n  ADD FOREIGN KEY (" ++ c ++ ") REFERENCES " ++ rt ++ " (" ++ rc ++
       ") ON DELETE " ++ d ++ " ON UPDATE " ++ u) ++ "\n", ?_⟩
    unfold renderAddForeignKey
    rw [if_neg hrt]
    simp only [String.append_assoc]

/-- Witness for C3 at concrete names, with reference table "posts" for the
non-users branch. -/
theorem c3_addForeignKey_users_bigint_unsigned_witness :
    renderAddForeignKey "posts" "owner_id" "INT" "users" "id" false "CASCADE" "CASCADE"
      = renderAddForeignKey "posts" "owner_id" "TEXT" "users" "id" false "CASCADE" "CASCADE" ∧
    (∃ pre post, renderAddForeignKey "posts" "owner_id" "INT" "users" "id" false
        "CASCADE" "CASCADE"
      = pre ++ ("ADD COLUMN " ++ "owner_id" ++ " BIGINT UNSIGNED") ++ post) ∧
    (∃ pre post, renderAddForeignKey "posts" "owner_id" "INT" "authors" "id" false
        "CASCADE" "CASCADE"
      = pre ++ ("ADD COLUMN " ++ "owner_id" ++ " " ++ "INT") ++ post) :=
  c3_addForeignKey_users_bigint_unsigned "posts" "owner_id" "INT" "TEXT" "authors" "id"
    "CASCADE" "CASCADE" false (by decide)

/-- C4, counterexample. The claim states that for a reference table equal to
"users" the reference-column-type lookup is never issued. Under an oracle
where every gate passes, AddForeignKey for a foreign key referencing users(id)
does issue the lookup: the call trace contains it. -/
theorem c4_users_lookup_issued_counterexample :
    ((AddForeignKey dbUsersOnly "posts"
      { columnName := "owner_id", referenceTableName := "users",
        referenceColumnName := "id", onUpdate := .NO_ACTION, onDelete := .NO_ACTION }
      false).2).contains (DbEvent.columnTypeLookup "users" "id") = true := rfl

/-- C4, amended. Whenever the four existence gates pass, the reference-column
-type lookup is issued on every path — including the users path, where its
result is unused because the template hardcodes BIGINT UNSIGNED — and the
trace is exactly: table-exists, column-not-exists, reference-table-exists,
reference-column-exists, the type lookup, then the single DDL statement. -/
theorem c4_addForeignKey_lookup_after_checks_before_ddl (db : Db)
    (tableName : String) (fk : PbForeignKey) (nn : Bool)
    (h1 : db.tableExists tableName = true)
    (h2 : db.columnExists tableName fk.columnName = false)
    (h3 : db.tableExists fk.referenceTableName = true)
    (h4 : db.columnExists fk.referenceTableName fk.referenceColumnName = true) :
    (AddForeignKey db tableName fk nn).2 =
      [DbEvent.tableExistsCheck tableName,
       DbEvent.columnExistsCheck tableName fk.columnName,
       DbEvent.tableExistsCheck fk.referenceTableName,
       DbEvent.columnExistsCheck fk.referenceTableName fk.referenceColumnName,
       DbEvent.columnTypeLookup fk.referenceTableName fk.referenceColumnName,
       DbEvent.execStmt (renderAddForeignKey tableName fk.columnName
         (db.columnTypeOf fk.referenceTableName fk.referenceColumnName)
         fk.referenceTableName fk.referenceColumnName nn
         (GetReferentialActionsFromEnum fk.onUpdate)
         (GetReferentialActionsFromEnum fk.onDelete))] := by
  simp [AddForeignKey, h1, h2, h3, h4, apply_ite Prod.snd]

/-- Witness for C4's amended theorem under the users-only oracle. -/
theorem c4_addForeignKey_lookup_after_checks_before_ddl_witness :
    (AddForeignKey dbUsersOnly "posts"
      { columnName := "owner_id", referenceTableName := "users",
        referenceColumnName := "id", onUpdate := .NO_ACTION, onDelete := .NO_ACTION }
      false).2 =
      [DbEvent.tableExistsCheck "posts",
       DbEvent.columnExistsCheck "posts" "owner_id",
       DbEvent.tableExistsCheck "users",
       DbEvent.columnExistsCheck "users" "id",
       DbEvent.columnTypeLookup "users" "id",
       DbEvent.execStmt (renderAddForeignKey "posts" "owner_id"
         (dbUsersOnly.columnTypeOf "users" "id") "users" "id" false
         (GetReferentialActionsFromEnum .NO_ACTION)
         (GetReferentialActionsFromEnum .NO_ACTION))] :=
  c4_addForeignKey_lookup_after_checks_before_ddl dbUsersOnly "posts"
    { columnName := "owner_id", referenceTableName := "users",
      referenceColumnName := "id", onUpdate := .NO_ACTION, onDelete := .NO_ACTION }
    false rfl rfl rfl rfl

/-- C10. When the table and column gates pass but the column has no
foreign-key constraint (the lookup returns the empty string), DropForeignKey
does not abort with a precondition error: it renders the drop-constraint
statement with the empty constraint name and proceeds to execute both
statements in the transaction (shown here on the path where both succeed). -/
theorem c10_dropForeignKey_empty_constraint_proceeds (db : Db) (t c : String)
    (h1 : db.tableExists t = true) (h2 : db.columnExists t c = true)
    (h3 : db.fkConstraintOf t c = "")
    (h4 : db.execFails (renderDropForeignKeyConstraint t "") = false)
    (h5 : db.execFails (renderDropForeignKeyColumn t c) = false)
    (h6 : db.commitFails = false) :
    (DropForeignKey db t c).1 = .ok "foreign key dropped" ∧
    (DropForeignKey db t c).2 =
      [DbEvent.tableExistsCheck t, DbEvent.columnExistsCheck t c,
       DbEvent.constraintLookup t c, DbEvent.txBegin,
       DbEvent.txExec (renderDropForeignKeyConstraint t ""),
       DbEvent.txExec (renderDropForeignKeyColumn t c), DbEvent.txCommit] ∧
    renderDropForeignKeyConstraint t "" = "ALTER TABLE " ++ t ++ " DROP FOREIGN KEY " := by
  refine ⟨?_, ?_, by simp [renderDropForeignKeyConstraint]⟩ <;>
    simp [DropForeignKey, h1, h2, h3, h4, h5, h6]

/-- Witness for C10 under the oracle where everything exists and no constraint
is recorded. -/
theorem c10_dropForeignKey_empty_constraint_proceeds_witness :
    (DropForeignKey dbAllExistNoConstraint "posts" "owner_id").1
      = .ok "foreign key dropped" ∧
    (DropForeignKey dbAllExistNoConstraint "posts" "owner_id").2 =
      [DbEvent.tableExistsCheck "posts", DbEvent.columnExistsCheck "posts" "owner_id",
       DbEvent.constraintLookup "posts" "owner_id", DbEvent.txBegin,
       DbEvent.txExec (renderDropForeignKeyConstraint "posts" ""),
       DbEvent.txExec (renderDropForeignKeyColumn "posts" "owner_id"),
       DbEvent.txCommit] ∧
    renderDropForeignKeyConstraint "posts" ""
      = "ALTER TABLE " ++ "posts" ++ " DROP FOREIGN KEY " :=
  c10_dropForeignKey_empty_constraint_proceeds dbAllExistNoConstraint "posts" "owner_id"
    rfl rfl rfl rfl rfl rfl

/-- C6. GetColumnFromType succeeds exactly when the row's dataType lies in the
known set {int, bigint, smallint, mediumint, tinyint, varchar, decimal, float,
double, text, timestamp}; every dataType outside the set is a hard
"unsupported column type" error, never silently dropped or defaulted. -/
theorem c6_getColumnFromType_supported_iff (row : RawColumnDetails) :
    (GetColumnFromType row).isOk = true ↔
      (row.dataType = "int" ∨ row.dataType = "bigint" ∨ row.dataType = "smallint" ∨
       row.dataType = "mediumint" ∨ row.dataType = "tinyint" ∨ row.dataType = "varchar" ∨
       row.dataType = "decimal" ∨ row.dataType = "float" ∨ row.dataType = "double" ∨
       row.dataType = "text" ∨ row.dataType = "timestamp") := by
  unfold GetColumnFromType
  by_cases h1 : row.dataType = "int"
  · rw [if_pos h1]
    simp [Except.isOk, Except.toBool, h1]
  rw [if_neg h1]
  by_cases h2 : row.dataType = "bigint"
  · rw [if_pos h2]
    simp [Except.isOk, Except.toBool, h2]
  rw [if_neg h2]
  by_cases h3 : row.dataType = "smallint"
  · rw [if_pos h3]
    simp [Except.isOk, Except.toBool, h3]
  rw [if_neg h3]
  by_cases h4 : row.dataType = "mediumint"
  · rw [if_pos h4]
    simp [Except.isOk, Except.toBool, h4]
  rw [if_neg h4]
  by_cases h5 : row.dataType = "tinyint"
  · rw [if_pos h5]
    simp [Except.isOk, Except.toBool, h5]
  rw [if_neg h5]
  by_cases h6 : row.dataType = "decimal"
  · rw [if_pos h6]
    simp [Except.isOk, Except.toBool, h6]
  rw [if_neg h6]
  by_cases h7 : row.dataType = "float"
  · rw [if_pos h7]
    simp [Except.isOk, Except.toBool, h7]
  rw [if_neg h7]
  by_cases h8 : row.dataType = "double"
  · rw [if_pos h8]
    simp [Except.isOk, Except.toBool, h8]
  rw [if_neg h8]
  by_cases h9 : row.dataType = "text"
  · rw [if_pos h9]
    simp [Except.isOk, Except.toBool, h9]
  rw [if_neg h9]
  by_cases h10 : row.dataType = "varchar"
  · rw [if_pos h10]
    simp [Except.isOk, Except.toBool, h10]
  rw [if_neg h10]
  by_cases h11 : row.dataType = "timestamp"
  · rw [if_pos h11]
    simp [Except.isOk, Except.toBool, h11]
  rw [if_neg h11]
  simp [Except.isOk, Except.toBool, h1, h2, h3, h4, h5, h6, h7, h8, h9, h10, h11]

/-- C5. For every well-formed column variant accepted by the encoder, encoding
with ToSQL, re-introspecting, and decoding with GetColumnFromType yields the
original variant, except the documented lossy case: an Int of width TINYINT
decodes to Bool (its width and signedness are discarded). -/
theorem c5_toSQL_introspection_roundtrip (c : ColumnType)
    (hwf : columnTypeWF c = true) (hok : (ToSQL c).isOk = true) :
    GetColumnFromType (introspectRow c) = .ok { type := some (roundTripImage c) } := by
  cases c with
  | IntColumn ic =>
      obtain ⟨w, u, a⟩ := ic
      cases w
      case UNRECOGNIZED v =>
        simp [ToSQL, GetIntColumnType, Except.isOk, Except.toBool] at hok
      all_goals cases u <;> cases a <;> rfl
  | BoolColumn => rfl
  | TimestampColumn => rfl
  | TextColumn => rfl
  | VarcharColumn vc =>
      obtain ⟨l⟩ := vc
      have hl : l < 4294967296 := by simpa [columnTypeWF] using hwf
      simp [introspectRow, GetColumnFromType, roundTripImage, Option.getD_some,
        uint32OfInt64_coe l hl]
  | DecimalColumn dc =>
      obtain ⟨p, sc⟩ := dc
      have hb : p < 4294967296 ∧ sc < 4294967296 := by simpa [columnTypeWF] using hwf
      simp [introspectRow, GetColumnFromType, roundTripImage, Option.getD_some,
        uint32OfInt64_coe p hb.1, uint32OfInt64_coe sc hb.2]
  | FixedPointColumn fc =>
      obtain ⟨ft, p⟩ := fc
      have hp : p < 4294967296 := by simpa [columnTypeWF] using hwf
      cases ft
      case UNRECOGNIZED v =>
        simp [ToSQL, GetFixedPointColumnType, Except.isOk, Except.toBool] at hok
      case FLOAT =>
        simp [introspectRow, GetColumnFromType, roundTripImage, fixedPointKeyword,
          Option.getD_some, uint32OfInt64_coe p hp]
      case DOUBLE =>
        simp [introspectRow, GetColumnFromType, roundTripImage, fixedPointKeyword,
          Option.getD_some, uint32OfInt64_coe p hp]

/-- Witness for C5: a Varchar of length 100 and an Int of width TINYINT (the
lossy case). -/
theorem c5_toSQL_introspection_roundtrip_witness :
    (columnTypeWF (.VarcharColumn ⟨100⟩) = true ∧
     (ToSQL (.VarcharColumn ⟨100⟩)).isOk = true ∧
     GetColumnFromType (introspectRow (.VarcharColumn ⟨100⟩))
       = .ok { type := some (roundTripImage (.VarcharColumn ⟨100⟩)) }) ∧
    (columnTypeWF (.IntColumn ⟨.TINYINT, true, false⟩) = true ∧
     (ToSQL (.IntColumn ⟨.TINYINT, true, false⟩)).isOk = true ∧
     GetColumnFromType (introspectRow (.IntColumn ⟨.TINYINT, true, false⟩))
       = .ok { type := some (roundTripImage (.IntColumn ⟨.TINYINT, true, false⟩)) }) :=
  ⟨⟨rfl, rfl, c5_toSQL_introspection_roundtrip _ rfl rfl⟩,
   ⟨rfl, rfl, c5_toSQL_introspection_roundtrip _ rfl rfl⟩⟩

end SchemaService
